import Mathlib

/-
  Verification of the CVAs shoreline-extraction core (Google Earth Engine
  JavaScript sources: shoreline.js, shoreline_extraction_100.js,
  Shoreline_Extraction_101.js, and the unnamed v2.0.0 shoreline module).

  The sources are shallowly embedded: histograms are pairs of rational
  lists (bucket counts and bucket means, as delivered by the backend
  histogram reducer), server-side arithmetic that can fail (division by
  zero, reducing an empty list, out-of-range array access) is modelled in
  the Option monad, rasters are sets of water pixels, and the geometry
  backend (buffer / difference / intersects / LineString) is abstracted as
  a record of operations, mirroring the external-collaborator interface.
-/

namespace CVAs

/-! ### Histograms and the Otsu threshold estimator

Embeds the `otsu` function that is duplicated verbatim in
`detectWaterFromSAR`/`detectWaterFromOptical`/`detectWaterFromLandsat`
(shoreline.js lines 272-296, 403-427, 462-486, and the corresponding
copies in the other scripts).  A histogram value is the pair of the
`histogram` (bucket counts) and `bucketMeans` arrays returned by the
backend reducer. -/

/-- A backend histogram: bucket counts and bucket means, in bucket order. -/
structure Histogram where
  counts : List ℚ
  bucketMeans : List ℚ

/-- Checked division: server-side division by zero is an evaluation error,
modelled as `none`. -/
def qdiv? (a b : ℚ) : Option ℚ :=
  if b = 0 then none else some (a / b)

/-- The sum `means.multiply(counts).reduce(sum)`: the weighted sum of bucket means. -/
def weightedSum (means counts : List ℚ) : ℚ :=
  (List.zipWith (fun m c => m * c) means counts).sum

/-- An `ee.List.map` over a fallible per-element computation: the whole map
fails as soon as one element fails. -/
def mapOption (f : α → Option β) : List α → Option (List β)
  | [] => some []
  | x :: xs => (f x).bind fun y => (mapOption f xs).map fun ys => y :: ys

/-- The body of the `bss` map in `otsu` (shoreline.js lines 281-292) for a
single split index `i`: below-group count and mean over buckets `[0,i)`
(`slice(0, 0, i)`), above-group count `total - aCount` and mean
`(sum - aCount*aMean)/bCount`, returning the between-class variance. -/
def otsuSplitTerm (counts means : List ℚ) (total sumT mean : ℚ) (i : ℕ) : Option ℚ :=
  let aCounts := counts.take i
  let aCount := aCounts.sum
  let aMeans := means.take i
  (qdiv? (weightedSum aMeans aCounts) aCount).bind fun aMean =>
    let bCount := total - aCount
    (qdiv? (sumT - aCount * aMean) bCount).map fun bMean =>
      aCount * (aMean - mean) ^ 2 + bCount * (bMean - mean) ^ 2

/-- The `otsu` function (shoreline.js lines 272-296): between-class
variances `bss` over the split indices `ee.List.sequence(1, size-1)`, then
`means.get([bss.indexOf(bss.reduce(max))])`.  Reducing an empty `bss`
yields null and the subsequent `get` at index `-1` is an evaluation
error, hence the `Option.bind` chain. -/
def otsu (counts means : List ℚ) : Option ℚ :=
  let size := means.length
  let total := counts.sum
  let sumT := weightedSum means counts
  (qdiv? sumT total).bind fun mean =>
    (mapOption (otsuSplitTerm counts means total sumT mean) (List.range' 1 (size - 1))).bind
      fun bss => bss.max?.bind fun maxBss => means.get? (List.indexOf maxBss bss)

/-- The helper `getOtsuThreshold` (shoreline.js lines 262-298): run `otsu` on the
histogram the backend returned for the requested band. -/
def getOtsuThreshold (h : Histogram) : Option ℚ :=
  otsu h.counts h.bucketMeans

/-- Modelled from the spec (section 4.1 wording): the between-class
variance of the split `i`, with the below-group `[0,i)` and above-group
`[i,end)`, each with its weighted mean and count. -/
def splitVariance (counts means : List ℚ) (i : ℕ) : ℚ :=
  let total := counts.sum
  let globalMean := weightedSum means counts / total
  let belowCount := (counts.take i).sum
  let belowMean := weightedSum (means.take i) (counts.take i) / belowCount
  let aboveCount := (counts.drop i).sum
  let aboveMean := weightedSum (means.drop i) (counts.drop i) / aboveCount
  belowCount * (belowMean - globalMean) ^ 2 + aboveCount * (aboveMean - globalMean) ^ 2

/-- Modelled from the spec (section 4.1 wording): the first interior split
index `i` (ranging over `1` to `bucket_count - 1`) achieving the maximal
between-class variance. -/
def firstMaxSplitIndex (counts means : List ℚ) : Option ℕ :=
  let vars := (List.range' 1 (means.length - 1)).map (splitVariance counts means)
  vars.max?.map fun mx => 1 + List.indexOf mx vars

/-! ### Radar voting classifier

Embeds `detectWaterFromSAR` (shoreline.js lines 260-322): Otsu thresholds
on the VV and VH backscatter bands (in dB), the linear-scale VV/VH
quotient `10^(VV/10) / 10^(VH/10)` thresholded by its own Otsu value, and
the vote `vvWater.add(vhWater).add(ratioWater).gte(state.sarVotesRequired)`. -/

/-- One pixel of the two-band SAR composite, values in dB. -/
structure SARPixel where
  vv : ℚ
  vh : ℚ

/-- The conversion `ee.Image.constant(10).pow(band.divide(10))`: dB to linear scale. -/
noncomputable def dbToLinear (db : ℚ) : ℝ :=
  (10 : ℝ) ^ ((db : ℝ) / 10)

/-- The quotient `vvLinear.divide(vhLinear)`: the linear-scale band quotient. -/
noncomputable def linearQuot (p : SARPixel) : ℝ :=
  dbToLinear p.vv / dbToLinear p.vh

/-- A boolean indicator image value: 1 where the condition holds, else 0. -/
def indicatorNum (P : Prop) [Decidable P] : ℕ :=
  if P then 1 else 0

open Classical in
/-- The per-pixel water call of `detectWaterFromSAR` given the three Otsu
thresholds: the three indicator images are added and compared with
`gte(state.sarVotesRequired)` (shoreline.js lines 301-321). -/
noncomputable def sarWaterProp (tvv tvh tq : ℚ) (votesRequired : ℕ) (p : SARPixel) : Prop :=
  votesRequired ≤
    indicatorNum (p.vv < tvv) + indicatorNum (p.vh < tvh) +
      indicatorNum ((tq : ℝ) < linearQuot p)

/-- Modelled from the spec (section 4.2 wording): at least `k` of three
indicators agree. -/
def atLeastKOfThree : ℕ → Prop → Prop → Prop → Prop
  | 0, _, _, _ => True
  | 1, a, b, c => a ∨ b ∨ c
  | 2, a, b, c => (a ∧ b) ∨ (a ∧ c) ∨ (b ∧ c)
  | 3, a, b, c => a ∧ b ∧ c
  | _ + 4, _, _, _ => False

/-! ### Optical index classifier

Embeds `calculateWaterIndex` and the threshold comparisons of
`detectWaterFromOptical` from the two variants: shoreline.js lines
327-439 (custom-threshold path at 392-393) and the v2.0.0 module
(src/unnamed/part_000) lines 325-442 (custom-threshold path at 391-396). -/

/-- Reflectance bands of one Sentinel-2 pixel. -/
structure OptBands where
  b2 : ℚ
  b3 : ℚ
  b4 : ℚ
  b8 : ℚ
  b11 : ℚ
  b12 : ℚ

/-- The per-pixel `image.normalizedDifference([a, b])`. -/
def normDiff (a b : ℚ) : ℚ :=
  (a - b) / (a + b)

/-- The function `calculateWaterIndex` per pixel (shoreline.js lines 327-384; identical
switch in the other variants).  Unknown names default to MNDWI. -/
def calculateWaterIndex (indexName : String) (b : OptBands) : ℚ :=
  match indexName with
  | "Band8" => b.b8
  | "NDWI" => normDiff b.b3 b.b8
  | "MNDWI" => normDiff b.b3 b.b11
  | "AWEInsh" => 4 * (b.b3 - b.b11) - (0.25 * b.b8 + 2.75 * b.b12)
  | "AWEIsh" => b.b2 + 2.5 * b.b3 - 1.5 * (b.b8 + b.b11) - 0.25 * b.b12
  | "SMBWI" => (b.b2 + b.b3 + b.b4) / (b.b8 + b.b11 + b.b12)
  | "WRI" => (b.b3 + b.b4) / (b.b8 + b.b11)
  | "NDWI2" => normDiff b.b8 b.b11
  | _ => normDiff b.b3 b.b11

/-- The custom-threshold path of `detectWaterFromOptical` in shoreline.js
(lines 392-393): `return waterIndex.gt(state.waterThreshold)` for every
index name. -/
def opticalCustomWaterV1 (indexName : String) (waterThreshold : ℚ) (b : OptBands) : Prop :=
  waterThreshold < calculateWaterIndex indexName b

/-- The custom-threshold path of `detectWaterFromOptical` in the v2.0.0
module (src/unnamed/part_000 lines 391-396): `lt` for Band8, `gt`
otherwise. -/
def opticalCustomWaterV2 (indexName : String) (waterThreshold : ℚ) (b : OptBands) : Prop :=
  if indexName = "Band8" then calculateWaterIndex indexName b < waterThreshold
  else waterThreshold < calculateWaterIndex indexName b

/-- The automatic-threshold sign rule shared by both variants (shoreline.js
lines 431-437, v2.0.0 module lines 434-440): water is index `lt` the
threshold for Band8 and index `gt` the threshold otherwise. -/
def opticalAutoSignRule (indexName : String) (threshold indexValue : ℚ) : Prop :=
  if indexName = "Band8" then indexValue < threshold else threshold < indexValue

/-! ### Mask cleanup

Embeds the cleanup stage of `vectorizeWaterMask` in the v2.0.0 module
(src/unnamed/part_000 lines 517-525; shoreline.js lines 509-513 is the
same with iteration count 1): small-object removal via
`connectedPixelCount(state.waterBodySizeThreshold, true).gte(...)`
followed by `focal_max` then `focal_min` with a circular kernel of radius
`state.smoothingKernelSize`, each with `state.smoothingIterations`
iterations.  A binary water mask is the finite set of its water pixels. -/

/-- A pixel coordinate. -/
abbrev Cell := ℤ × ℤ

/-- Membership predicate of the circular kernel of radius `r`
(`ee.Kernel.circle`): offsets within Euclidean distance `r`. -/
def inDisc (r : ℕ) (o : Cell) : Prop :=
  o.1 ^ 2 + o.2 ^ 2 ≤ (r : ℤ) ^ 2

/-- The circular kernel of radius `r` as a finite set of offsets. -/
def discOffsets (r : ℕ) : Finset Cell :=
  ((Finset.Icc (-(r : ℤ)) (r : ℤ)) ×ˢ (Finset.Icc (-(r : ℤ)) (r : ℤ))).filter
    fun o => o.1 ^ 2 + o.2 ^ 2 ≤ (r : ℤ) ^ 2

/-- The filter `focal_max` with the circular kernel: a pixel is water when some pixel
within the kernel neighbourhood is water. -/
def focalMax (r : ℕ) (s : Finset Cell) : Finset Cell :=
  s.biUnion fun q => (discOffsets r).image fun o => q - o

/-- The filter `focal_min` with the circular kernel: a pixel is water when every pixel
within the kernel neighbourhood is water. -/
def focalMin (r : ℕ) (s : Finset Cell) : Finset Cell :=
  s.filter fun p => ∀ o ∈ discOffsets r, p + o ∈ s

/-- The eight neighbour offsets used by `connectedPixelCount(_, true)`
(`eightConnected: true`). -/
def nbrOffsets8 : Finset Cell :=
  ((Finset.Icc (-1 : ℤ) 1) ×ˢ (Finset.Icc (-1 : ℤ) 1)).erase (0, 0)

/-- One growth step of a connected component inside the mask `s`. -/
def growComponent (s : Finset Cell) (c : Finset Cell) : Finset Cell :=
  c ∪ (c.biUnion fun p => nbrOffsets8.image fun o => p + o) ∩ s

/-- The 8-connected component of `p` inside `s`: iterating the growth step
`s.card` times reaches a fixed point, since each strict growth adds at
least one pixel of `s`. -/
def componentFrom (s : Finset Cell) (p : Cell) : Finset Cell :=
  (growComponent s)^[s.card] (if p ∈ s then {p} else ∅)

/-- The count `connectedPixelCount(maxSize, true)` at one pixel: the component size,
capped at `maxSize`. -/
def connectedPixelCountAt (maxSize : ℕ) (s : Finset Cell) (p : Cell) : ℕ :=
  min maxSize (componentFrom s p).card

/-- The step `waterMask.updateMask(connectedPixelCount(threshold, true).gte(threshold))`:
drop water pixels whose component size is below the threshold. -/
def removeSmallObjects (threshold : ℕ) (s : Finset Cell) : Finset Cell :=
  s.filter fun p => threshold ≤ connectedPixelCountAt threshold s p

/-- The cleanup stage of `vectorizeWaterMask` (v2.0.0 module lines
517-525): small-object removal, then `focal_max` iterated `n` times, then
`focal_min` iterated `n` times, with the radius-`r` circular kernel. -/
def cleanupMask (threshold r n : ℕ) (s : Finset Cell) : Finset Cell :=
  (focalMin r)^[n] ((focalMax r)^[n] (removeSmallObjects threshold s))

/-- Modelled from the spec (section 4.3 wording): removal, then a
closing (max-filter then min-filter), then an opening (min-filter then
max-filter), each filter iterated `n` times with radius `r`. -/
def claimCleanupMask (threshold r n : ℕ) (s : Finset Cell) : Finset Cell :=
  (focalMax r)^[n] ((focalMin r)^[n] (cleanupMask threshold r n s))

/-- Modelled from the spec: the max-filter (dilation) on arbitrary pixel
sets — a pixel is water when some pixel within distance `r` is water. -/
def dilationS (r : ℕ) (A : Set Cell) : Set Cell :=
  {p | ∃ o, inDisc r o ∧ p + o ∈ A}

/-- Modelled from the spec: the min-filter (erosion) on arbitrary pixel
sets — a pixel is water when every pixel within distance `r` is water. -/
def erosionS (r : ℕ) (A : Set Cell) : Set Cell :=
  {p | ∀ o, inDisc r o → p + o ∈ A}

/-- A five-pixel cross: the smallest water body surviving a size-5
threshold. -/
def crossShape : Finset Cell :=
  {(0, 0), (1, 0), (-1, 0), (0, 1), (0, -1)}

/-- The cross with a one-pixel east protrusion: closed under the radius-1
closing, but not under the subsequent opening. -/
def crossWithSpur : Finset Cell :=
  insert (2, 0) crossShape

/-! ### Vectorizer / coastal filter

Embeds the vector stage of `vectorizeWaterMask` in the v2.0.0 module
(src/unnamed/part_000 lines 528-547) and the tile path
`processCoastalTile` (lines 1013-1048).  The geometry backend (buffer,
difference, LineString construction, intersection test with an error
margin) is the external collaborator, abstracted as a record of
operations over an arbitrary geometry type. -/

/-- The geometry-backend operations consumed by the vectorizer. -/
structure GeoOps (G : Type) where
  lineString : List (ℚ × ℚ) → G
  intersects : G → G → ℚ → Bool
  buffer : G → ℚ → G
  difference : G → G → G

/-- A vectorized polygon feature: its rings, each a coordinate list (the
outer ring first, as returned by `geometry().coordinates()`). -/
structure PolyFeature where
  rings : List (List (ℚ × ℚ))

/-- The list `ee.List(feat.geometry().coordinates().get(0))`: the outer ring. -/
def outerRing (f : PolyFeature) : List (ℚ × ℚ) :=
  f.rings.headD []

/-- The annulus `geometry.buffer(d).difference(geometry.buffer(-d))` (v2.0.0 module
lines 528-530): the coastal corridor around the AOI boundary. -/
def coastalCorridor (ops : GeoOps G) (aoi : G) (d : ℚ) : G :=
  ops.difference (ops.buffer aoi d) (ops.buffer aoi (-d))

/-- The error margin `ee.ErrorMargin(0.5)` of the v2.0.0
`vectorizeWaterMask` intersection test (line 545). -/
def vectorErrorMargin : ℚ := 1 / 2

/-- The polygon-to-shoreline stage of the v2.0.0 `vectorizeWaterMask`
(lines 542-547): every polygon's outer ring becomes a LineString, its
`isCoastal` flag is the corridor intersection test, and only
`isCoastal == true` features are kept. -/
def vectorizeShorelineV2 (ops : GeoOps G) (aoi : G) (d : ℚ)
    (polys : List PolyFeature) : List (G × Bool) :=
  let corridor := coastalCorridor ops aoi d
  (polys.map fun f =>
      (ops.lineString (outerRing f),
        ops.intersects (ops.lineString (outerRing f)) corridor vectorErrorMargin)).filter
    fun fb => fb.2

/-- The tile path `processCoastalTile` (v2.0.0 module lines 1013-1048): a feature is
turned into a LineString and intersection-tested (margin 1.0) only when
its outer ring has more than 2 coordinates; otherwise the branch yields
null, and null features are filtered out together with non-coastal
ones. -/
def processCoastalTileModel (ops : GeoOps G) (aoiBoundary : G)
    (polys : List PolyFeature) : List (G × Bool) :=
  (polys.filterMap fun f =>
      if 2 < (outerRing f).length then
        some (ops.lineString (outerRing f),
          ops.intersects (ops.lineString (outerRing f)) aoiBoundary 1)
      else none).filter
    fun fb => fb.2

/-- A degenerate geometry backend over a one-point geometry type, whose
intersection test always succeeds: enough to observe which features reach
the intersection test and the output. -/
def unitGeoOps : GeoOps Unit where
  lineString := fun _ => ()
  intersects := fun _ _ _ => true
  buffer := fun _ _ => ()
  difference := fun _ _ => ()

/-- A polygon feature whose outer ring has only 2 coordinate vertices. -/
def twoVertexPoly : PolyFeature :=
  ⟨[[(0, 0), (1, 0)]]⟩

/-- A polygon feature with a valid 3-vertex outer ring. -/
def threeVertexPoly : PolyFeature :=
  ⟨[[(0, 0), (1, 0), (0, 1)]]⟩

/-! ### Pipeline orchestration

Embeds the control flow of `processSentinel1` (shoreline.js lines
1585-1647; Shoreline_Extraction_101.js lines 956-991 is identical): the
catalog scene count is checked first, and a zero count reports the
failure and returns before the composite, classification, cleanup,
vectorization, clipping, or `displayResults` are reached. -/

/-- The pipeline stages of one run, in source order.  Cleanup and
vectorization both live inside the `vectorizeWaterMask` call; publishing
is the `displayResults` call that stores the run's results. -/
inductive PipelineStep where
  | checkCatalog
  | buildComposite
  | classify
  | cleanupStep
  | vectorizeStep
  | clipToAOI
  | publishResults
deriving DecidableEq

/-- Failure reasons surfaced by the orchestrator. -/
inductive FailReason where
  | noImagery
deriving DecidableEq

/-- Terminal outcome of one orchestrated run. -/
inductive RunOutcome where
  | failed (reason : FailReason)
  | completed
deriving DecidableEq

open PipelineStep in
/-- The control flow of `processSentinel1` as the list of executed stages
plus the terminal outcome, as a function of the catalog's scene count
(`collection.size()`): `if (count === 0)` reports and returns (lines
1596-1613), else the run continues through every stage. -/
def processSentinel1Flow (sceneCount : ℕ) : List PipelineStep × RunOutcome :=
  if sceneCount = 0 then
    ([checkCatalog], RunOutcome.failed FailReason.noImagery)
  else
    ([checkCatalog, buildComposite, classify, cleanupStep, vectorizeStep,
      clipToAOI, publishResults], RunOutcome.completed)

/-! ### The v2.0.0 Landsat classifier and the missing `otsuThreshold`

`detectWaterFromLandsat` in the v2.0.0 module (src/unnamed/part_000 lines
447-468) calls `otsuThreshold(hist)` (line 466).  No source file declares
a function of that name (the implementations are named `otsu` and
`getOtsuThreshold`), so the call fails to resolve and the classifier can
never produce a mask.  Name resolution is modelled by an environment
mapping declared names to implementations. -/

/-- Every function name declared in the repository's source files
(function statements and function-valued variable bindings, across
shoreline.js, shoreline_extraction_100.js, Shoreline_Extraction_101.js,
slope.js and the unnamed v2.0.0 module). -/
def declaredFunctionNames : List String :=
  ["resetState", "updateStatus", "createInfoTooltip", "createSectionHeader",
   "validateDate", "getAdaptiveScale", "detectWaterFromSAR", "getOtsuThreshold",
   "otsu", "calculateWaterIndex", "detectWaterFromOptical", "detectWaterFromLandsat",
   "vectorizeDirectly", "vectorizeWaterMask", "displayResults",
   "progressiveShorelineVisualization", "loadBatch", "processCoastalTile",
   "processSentinel2WithProgress", "processSentinel1WithProgress",
   "processLandsatWithProgress", "initializeDrawing", "showWelcome", "showDrawAOI",
   "showMethodSelection", "showAdvancedSettings", "showDateCloudSettings",
   "showSentinel2Options", "processImagery", "updateProgressUI", "processSentinel1",
   "processSentinel2", "processLandsat", "addAssetSelector", "addLocalFileUpload",
   "calculateCoastalSlope", "createSlopeAnalysisUI", "getSlopeVulnerabilityCategory",
   "initializeSentinel2Processing", "loadSlopeAnalysis", "processImage",
   "processLocalImage", "showAnalysisSettingsPage", "showDEMSelectionPage",
   "showResultsPage", "showWelcomeScreen"]

/-- An environment binding exactly the declared function names to their
(arbitrary) threshold-function implementations; every other name is
unresolved. -/
def sourceEnv (impl : String → Histogram → Option ℚ) (name : String) :
    Option (Histogram → Option ℚ) :=
  if name ∈ declaredFunctionNames then some (impl name) else none

/-- The classifier `detectWaterFromLandsat` of the v2.0.0 module at one pixel, given the
backend AWEI histogram and the pixel's AWEI value: resolve and call
`otsuThreshold`, then classify water as `awei.gt(threshold)`. -/
def detectWaterFromLandsatV2 (resolve : String → Option (Histogram → Option ℚ))
    (hist : Histogram) (aweiValue : ℚ) : Option Bool :=
  (resolve "otsuThreshold").bind fun f =>
    (f hist).map fun threshold => decide (threshold < aweiValue)

/-! ### Shared lemmas -/

theorem mapOption_eq_some_map {α β : Type} {f : α → Option β} {g : α → β} :
    ∀ {l : List α}, (∀ x ∈ l, f x = some (g x)) → mapOption f l = some (l.map g) := by
  intro l
  induction l with
  | nil => intro _; rfl
  | cons x xs ih =>
    intro h
    simp only [mapOption, h x (by simp), Option.some_bind,
      ih fun y hy => h y (List.mem_cons_of_mem x hy), Option.map_some', List.map_cons]

theorem max?_of_ne_nil {l : List ℚ} (h : l ≠ []) : ∃ m, l.max? = some m := by
  cases l with
  | nil => exact absurd rfl h
  | cons x xs => exact ⟨xs.foldl max x, rfl⟩

theorem mem_discOffsets {r : ℕ} {o : Cell} : o ∈ discOffsets r ↔ inDisc r o := by
  constructor
  · intro h
    exact (Finset.mem_filter.mp h).2
  · intro h
    have h1 : o.1 ^ 2 + o.2 ^ 2 ≤ (r : ℤ) ^ 2 := h
    refine Finset.mem_filter.mpr ⟨Finset.mem_product.mpr ⟨?_, ?_⟩, h⟩
    · refine Finset.mem_Icc.mpr ⟨?_, ?_⟩ <;>
        nlinarith [sq_nonneg o.2, sq_nonneg (o.1 + (r : ℤ)), sq_nonneg (o.1 - (r : ℤ))]
    · refine Finset.mem_Icc.mpr ⟨?_, ?_⟩ <;>
        nlinarith [sq_nonneg o.1, sq_nonneg (o.2 + (r : ℤ)), sq_nonneg (o.2 - (r : ℤ))]

theorem coe_focalMax (r : ℕ) (s : Finset Cell) :
    (↑(focalMax r s) : Set Cell) = dilationS r ↑s := by
  ext p
  simp only [focalMax, Finset.coe_biUnion, Set.mem_iUnion, Finset.mem_coe,
    Finset.mem_image, dilationS, Set.mem_setOf_eq]
  constructor
  · rintro ⟨q, hq, o, ho, rfl⟩
    exact ⟨o, mem_discOffsets.mp ho, by simpa [sub_add_cancel] using hq⟩
  · rintro ⟨o, ho, hpo⟩
    exact ⟨p + o, hpo, o, mem_discOffsets.mpr ho, add_sub_cancel_right p o⟩

theorem zero_mem_discOffsets (r : ℕ) : ((0, 0) : Cell) ∈ discOffsets r := by
  refine mem_discOffsets.mpr ?_
  simp [inDisc]

theorem coe_focalMin (r : ℕ) (s : Finset Cell) :
    (↑(focalMin r s) : Set Cell) = erosionS r ↑s := by
  ext p
  simp only [focalMin, Finset.coe_filter, Set.mem_setOf_eq, erosionS, Finset.mem_coe]
  constructor
  · rintro ⟨_, h⟩ o ho
    exact h o (mem_discOffsets.mpr ho)
  · intro h
    have h0 : p ∈ s := by
      have := h ((0, 0) : Cell) (mem_discOffsets.mp (zero_mem_discOffsets r))
      simpa [show p + ((0, 0) : Cell) = p from by simp [Prod.ext_iff]] using this
    exact ⟨h0, fun o ho => h o (mem_discOffsets.mp ho)⟩

theorem coe_focalMax_iterate (r n : ℕ) :
    ∀ s : Finset Cell, (↑((focalMax r)^[n] s) : Set Cell) = (dilationS r)^[n] ↑s := by
  induction n with
  | zero => intro s; simp
  | succ n ih =>
    intro s
    rw [Function.iterate_succ_apply, Function.iterate_succ_apply, ih, coe_focalMax]

theorem coe_focalMin_iterate (r n : ℕ) :
    ∀ s : Finset Cell, (↑((focalMin r)^[n] s) : Set Cell) = (erosionS r)^[n] ↑s := by
  induction n with
  | zero => intro s; simp
  | succ n ih =>
    intro s
    rw [Function.iterate_succ_apply, Function.iterate_succ_apply, ih, coe_focalMin]

/-! ### Claim theorems -/

/-- Claim C4 (code evaluation at the failing inputs): on a one-bucket
histogram, and on a two-bucket histogram of zero total count, the `otsu`
computation fails as an evaluation error (empty variance list reduced by
max, respectively division by zero) — there is no structured
`InsufficientDataError` anywhere in the sources, contradicting the spec
and the code's own comment about an improved error-handling
`otsuThreshold`. -/
theorem otsu_degenerate_fails :
    otsu [5] [3] = none ∧ otsu [0, 0] [1, 2] = none := by
  constructor <;> simp [otsu, qdiv?, weightedSum, mapOption, otsuSplitTerm]

/-- Claim C7: with a zero catalog scene count, `processSentinel1` ends in
the no-imagery failure without reaching classification, cleanup,
vectorization, or result publication. -/
theorem zero_scenes_fails_before_classification :
    (processSentinel1Flow 0).2 = RunOutcome.failed FailReason.noImagery ∧
    PipelineStep.classify ∉ (processSentinel1Flow 0).1 ∧
    PipelineStep.cleanupStep ∉ (processSentinel1Flow 0).1 ∧
    PipelineStep.vectorizeStep ∉ (processSentinel1Flow 0).1 ∧
    PipelineStep.publishResults ∉ (processSentinel1Flow 0).1 := by
  decide

/-- Claim C10: `otsuThreshold` is declared in no source file, so the
v2.0.0 `detectWaterFromLandsat`, which calls it, fails before producing a
classification for every histogram and every pixel value. -/
theorem landsat_otsu_threshold_unresolved :
    "otsuThreshold" ∉ declaredFunctionNames ∧
    ∀ (impl : String → Histogram → Option ℚ) (hist : Histogram) (aweiValue : ℚ),
      detectWaterFromLandsatV2 (sourceEnv impl) hist aweiValue = none := by
  have h : "otsuThreshold" ∉ declaredFunctionNames := by decide
  refine ⟨h, ?_⟩
  intro impl hist aweiValue
  simp [detectWaterFromLandsatV2, sourceEnv, h]

/-- Claim C5 (counterexample): on the cross-with-spur mask with
`min_water_body_pixels = 5`, radius 1 and 1 iteration, the code's cleanup
returns the mask unchanged, while the claimed closing-then-opening
smoothing also erodes the spur — so the code's smoothing is not a closing
followed by an opening. -/
theorem cleanup_no_opening_counterexample :
    cleanupMask 5 1 1 crossWithSpur = crossWithSpur ∧
    claimCleanupMask 5 1 1 crossWithSpur = crossShape ∧
    cleanupMask 5 1 1 crossWithSpur ≠ claimCleanupMask 5 1 1 crossWithSpur := by
  decide

/-- Claim C5 (amended): cleanup removes undersized 8-connected components
first and afterwards applies the circular-kernel smoothing, and that
smoothing is a closing only — the max-filter iterated `n` times followed
by the min-filter iterated `n` times, with no subsequent opening. -/
theorem cleanup_is_removal_then_closing (threshold r n : ℕ) (s : Finset Cell) :
    (↑(cleanupMask threshold r n s) : Set Cell) =
      (erosionS r)^[n] ((dilationS r)^[n] ↑(removeSmallObjects threshold s)) := by
  rw [cleanupMask, coe_focalMin_iterate, coe_focalMax_iterate]

/-- Claim C3 (counterexample): in shoreline.js, with the custom threshold
enabled, the Band8 index is classified water when it is above the
threshold (index 1 against threshold 0), while the claimed sign rule —
the automatic path's rule, below-threshold=water for Band8 — classifies
the same pixel as land. -/
theorem optical_custom_sign_counterexample :
    opticalCustomWaterV1 "Band8" 0 ⟨0, 0, 0, 1, 0, 0⟩ ∧
    ¬ opticalAutoSignRule "Band8" 0 (calculateWaterIndex "Band8" ⟨0, 0, 0, 1, 0, 0⟩) := by
  constructor
  · show (0 : ℚ) < calculateWaterIndex "Band8" ⟨0, 0, 0, 1, 0, 0⟩
    norm_num [calculateWaterIndex]
  · simp [opticalAutoSignRule, calculateWaterIndex]

/-- Claim C3 (amended): the v2.0.0 module's custom-threshold path follows
the sign rule of the automatic path (below-threshold=water for Band8,
above-threshold=water otherwise), while the shoreline.js custom-threshold
path classifies water as above-threshold for every index name, including
Band8. -/
theorem optical_custom_sign_rules (indexName : String) (wt : ℚ) (b : OptBands) :
    (opticalCustomWaterV2 indexName wt b ↔
      opticalAutoSignRule indexName wt (calculateWaterIndex indexName b)) ∧
    (opticalCustomWaterV1 indexName wt b ↔ wt < calculateWaterIndex indexName b) := by
  constructor
  · unfold opticalCustomWaterV2 opticalAutoSignRule
    by_cases h : indexName = "Band8" <;> simp [h]
  · exact Iff.rfl

/-- Claim C6: the v2.0.0 vectorizer builds the coastal corridor as the
difference of the outward and inward buffers of the AOI, tests every
derived outer-ring line against that corridor with the positive error
margin 0.5, and its output consists of exactly the lines passing that
test. -/
theorem vectorize_coastal_filter :
    (0 : ℚ) < vectorErrorMargin ∧
    ∀ {G : Type} (ops : GeoOps G) (aoi : G) (d : ℚ) (polys : List PolyFeature)
      (fb : G × Bool),
      (fb ∈ vectorizeShorelineV2 ops aoi d polys ↔
        ∃ f ∈ polys,
          ops.intersects (ops.lineString (outerRing f)) (coastalCorridor ops aoi d)
              vectorErrorMargin = true ∧
          fb = (ops.lineString (outerRing f), true)) := by
  constructor
  · norm_num [vectorErrorMargin]
  · intro G ops aoi d polys fb
    simp only [vectorizeShorelineV2, List.mem_filter, List.mem_map]
    constructor
    · rintro ⟨⟨f, hf, rfl⟩, h2⟩
      simp only at h2
      exact ⟨f, hf, h2, by simp [h2]⟩
    · rintro ⟨f, hf, hint, rfl⟩
      exact ⟨⟨f, hf, by simp [hint]⟩, rfl⟩

/-- Claim C8 (counterexample): `vectorizeWaterMask` applies no
vertex-count check — a polygon whose outer ring has only 2 vertices is
passed to the corridor intersection test and, when the backend reports an
intersection, appears in the output. -/
theorem vectorize_passes_two_vertex_ring :
    (outerRing twoVertexPoly).length = 2 ∧
    vectorizeShorelineV2 unitGeoOps () 1 [twoVertexPoly] = [((), true)] := by
  constructor <;> rfl

/-- Claim C8 (amended): only the tile path `processCoastalTile` excludes
features with fewer than 3 outer-ring vertices before the intersection
test — every feature it emits stems from a polygon with more than 2
outer-ring vertices — while `vectorizeWaterMask` passes every outer ring
through regardless of vertex count. -/
theorem coastal_tile_excludes_short_rings {G : Type} (ops : GeoOps G)
    (aoiBoundary : G) (polys : List PolyFeature) (fb : G × Bool)
    (hmem : fb ∈ processCoastalTileModel ops aoiBoundary polys) :
    ∃ f ∈ polys, 2 < (outerRing f).length ∧ fb.1 = ops.lineString (outerRing f) := by
  simp only [processCoastalTileModel, List.mem_filter, List.mem_filterMap] at hmem
  obtain ⟨⟨f, hf, hsome⟩, _⟩ := hmem
  by_cases h3 : 2 < (outerRing f).length
  · rw [if_pos h3] at hsome
    refine ⟨f, hf, h3, ?_⟩
    cases hsome
    rfl
  · rw [if_neg h3] at hsome
    exact absurd hsome (by simp)

/-- Witness for the amended claim C8, at a 3-vertex polygon and the
trivial backend. -/
theorem coastal_tile_excludes_short_rings_witness :
    ∃ f ∈ [threeVertexPoly], 2 < (outerRing f).length ∧
      (((), true) : Unit × Bool).1 = unitGeoOps.lineString (outerRing f) :=
  coastal_tile_excludes_short_rings unitGeoOps () [threeVertexPoly] ((), true)
    (by decide)

/-- Claim C2: given the Otsu thresholds of the VV band, the VH band and
the linear-scale VV/VH quotient, a pixel is classified water by
`detectWaterFromSAR` exactly when at least `sar_vote_threshold` of the
three indicators hold — VV below its threshold, VH below its threshold,
and the dB-to-linear converted quotient above its threshold. -/
theorem sar_vote_threshold_rule (hVV hVH hQ : Histogram) (tvv tvh tq : ℚ)
    (votesRequired : ℕ) (p : SARPixel)
    (_h1 : getOtsuThreshold hVV = some tvv) (_h2 : getOtsuThreshold hVH = some tvh)
    (_h3 : getOtsuThreshold hQ = some tq) :
    (sarWaterProp tvv tvh tq votesRequired p ↔
      atLeastKOfThree votesRequired (p.vv < tvv) (p.vh < tvh)
        ((tq : ℝ) < linearQuot p)) := by
  unfold sarWaterProp
  by_cases hA : p.vv < tvv <;> by_cases hB : p.vh < tvh <;>
    by_cases hC : (tq : ℝ) < linearQuot p <;>
      rcases votesRequired with _ | _ | _ | _ | k <;>
        simp [indicatorNum, hA, hB, hC, atLeastKOfThree]

/-- Witness for claim C2, with concrete histograms (Otsu thresholds 0, 0
and -3) and the pixel VV = VH = -5 dB. -/
theorem sar_vote_threshold_rule_witness :
    sarWaterProp 0 0 (-3) 2 ⟨-5, -5⟩ ↔
      atLeastKOfThree 2 ((-5 : ℚ) < 0) ((-5 : ℚ) < 0)
        (((-3 : ℚ) : ℝ) < linearQuot ⟨-5, -5⟩) :=
  sar_vote_threshold_rule ⟨[1, 1], [0, 10]⟩ ⟨[1, 1], [0, 10]⟩ ⟨[1, 1], [-3, 5]⟩
    0 0 (-3) 2 ⟨-5, -5⟩
    (by norm_num [getOtsuThreshold, otsu, qdiv?, weightedSum, mapOption,
      otsuSplitTerm, List.range', List.max?, List.indexOf, List.findIdx,
      List.findIdx.go])
    (by norm_num [getOtsuThreshold, otsu, qdiv?, weightedSum, mapOption,
      otsuSplitTerm, List.range', List.max?, List.indexOf, List.findIdx,
      List.findIdx.go])
    (by norm_num [getOtsuThreshold, otsu, qdiv?, weightedSum, mapOption,
      otsuSplitTerm, List.range', List.max?, List.indexOf, List.findIdx,
      List.findIdx.go])

/-- Claim C9: for identical input — hence identical per-band Otsu
thresholds — every pixel classified water under a vote threshold of 3 is
also classified water under a vote threshold of 1. -/
theorem sar_vote_monotonic (tvv tvh tq : ℚ) (p : SARPixel)
    (h3 : sarWaterProp tvv tvh tq 3 p) : sarWaterProp tvv tvh tq 1 p := by
  unfold sarWaterProp at h3 ⊢
  omega

/-- Witness for claim C9, at the pixel VV = VH = -5 dB with thresholds
0, 0 and -3, which receives all three votes. -/
theorem sar_vote_monotonic_witness : sarWaterProp 0 0 (-3) 1 ⟨-5, -5⟩ :=
  sar_vote_monotonic 0 0 (-3) ⟨-5, -5⟩ (by
    unfold sarWaterProp
    have hA : ((⟨-5, -5⟩ : SARPixel).vv : ℚ) < 0 := by norm_num
    have hB : ((⟨-5, -5⟩ : SARPixel).vh : ℚ) < 0 := by norm_num
    have hC : ((-3 : ℚ) : ℝ) < linearQuot ⟨-5, -5⟩ := by
      have hpos : (0 : ℝ) < linearQuot ⟨-5, -5⟩ := by
        unfold linearQuot dbToLinear
        positivity
      have hneg : ((-3 : ℚ) : ℝ) < 0 := by norm_num
      linarith
    unfold indicatorNum
    simp only [if_pos hA, if_pos hB, if_pos hC]
    omega)

theorem otsuSplitTerm_eq_splitVariance (counts means : List ℚ)
    (hlen : counts.length = means.length) (hpos : ∀ c ∈ counts, 0 < c)
    (i : ℕ) (hi1 : 1 ≤ i) (hi2 : i < counts.length) :
    otsuSplitTerm counts means counts.sum (weightedSum means counts)
        (weightedSum means counts / counts.sum) i =
      some (splitVariance counts means i) := by
  have htake_ne : counts.take i ≠ [] := by
    refine List.ne_nil_of_length_pos ?_
    rw [List.length_take]
    exact lt_min_iff.mpr ⟨by omega, by omega⟩
  have hdrop_ne : counts.drop i ≠ [] := by
    refine List.ne_nil_of_length_pos ?_
    rw [List.length_drop]
    omega
  have haC : 0 < (counts.take i).sum :=
    List.sum_pos _ (fun x hx => hpos x (List.take_subset i counts hx)) htake_ne
  have hdC : 0 < (counts.drop i).sum :=
    List.sum_pos _ (fun x hx => hpos x (List.drop_subset i counts hx)) hdrop_ne
  have hsc : (counts.take i).sum + (counts.drop i).sum = counts.sum :=
    List.sum_take_add_sum_drop counts i
  have hsT : weightedSum (means.take i) (counts.take i) +
      weightedSum (means.drop i) (counts.drop i) = weightedSum means counts := by
    unfold weightedSum
    rw [← List.take_zipWith, ← List.drop_zipWith, List.sum_take_add_sum_drop]
  have hbne : counts.sum - (counts.take i).sum ≠ 0 := by
    intro h
    have h2 : (counts.drop i).sum = 0 := by linarith
    exact absurd h2 hdC.ne'
  simp only [otsuSplitTerm, qdiv?]
  rw [if_neg haC.ne']
  simp only [Option.some_bind]
  rw [if_neg hbne]
  simp only [Option.map_some']
  congr 1
  simp only [splitVariance]
  have e1 : (counts.take i).sum *
      (weightedSum (means.take i) (counts.take i) / (counts.take i).sum) =
      weightedSum (means.take i) (counts.take i) := by
    field_simp
  rw [e1]
  have e2 : weightedSum means counts - weightedSum (means.take i) (counts.take i) =
      weightedSum (means.drop i) (counts.drop i) := by linarith
  rw [e2]
  have e3 : counts.sum - (counts.take i).sum = (counts.drop i).sum := by linarith
  rw [e3]

/-- Claim C1 (amended): for a well-formed histogram with at least 2
buckets and all bucket counts positive, `otsu` computes the between-class
variance at every interior split index, selects the first split index `i`
achieving the maximum, and returns the bucket mean at position `i - 1` —
the position of the maximal entry inside the variance list — not the mean
at the split index itself. -/
theorem otsu_returns_mean_before_split (counts means : List ℚ)
    (hlen : counts.length = means.length) (hmlen : 2 ≤ means.length)
    (hpos : ∀ c ∈ counts, 0 < c) :
    ∃ i, firstMaxSplitIndex counts means = some i ∧ 1 ≤ i ∧
      otsu counts means = means.get? (i - 1) := by
  have hcne : counts ≠ [] := by
    refine List.ne_nil_of_length_pos ?_
    omega
  have htot : 0 < counts.sum := List.sum_pos _ hpos hcne
  have hmap : mapOption (otsuSplitTerm counts means counts.sum (weightedSum means counts)
      (weightedSum means counts / counts.sum)) (List.range' 1 (means.length - 1)) =
      some ((List.range' 1 (means.length - 1)).map (splitVariance counts means)) := by
    refine mapOption_eq_some_map ?_
    intro j hj
    obtain ⟨hj1, hj2⟩ := List.mem_range'_1.mp hj
    exact otsuSplitTerm_eq_splitVariance counts means hlen hpos j hj1 (by omega)
  have hvne : (List.range' 1 (means.length - 1)).map (splitVariance counts means) ≠ [] := by
    intro h
    have hl := congrArg List.length h
    simp [List.length_range'] at hl
    omega
  obtain ⟨mx, hmx⟩ := max?_of_ne_nil hvne
  refine ⟨1 + List.indexOf mx
      ((List.range' 1 (means.length - 1)).map (splitVariance counts means)),
    ?_, by omega, ?_⟩
  · simp only [firstMaxSplitIndex]
    rw [hmx]
    rfl
  · simp only [otsu, qdiv?]
    rw [if_neg htot.ne']
    simp only [Option.some_bind]
    rw [hmap]
    simp only [Option.some_bind]
    rw [hmx]
    simp only [Option.some_bind]
    congr 1
    omega

/-- Witness for the amended claim C1, at the two-bucket histogram with
counts `[1, 1]` and bucket means `[0, 10]`. -/
theorem otsu_returns_mean_before_split_witness :
    ∃ i, firstMaxSplitIndex [1, 1] [(0 : ℚ), 10] = some i ∧ 1 ≤ i ∧
      otsu [1, 1] [(0 : ℚ), 10] = [(0 : ℚ), 10].get? (i - 1) :=
  otsu_returns_mean_before_split [1, 1] [0, 10] (by norm_num) (by norm_num)
    (by
      intro c hc
      simp only [List.mem_cons, List.not_mem_nil, or_false] at hc
      rcases hc with rfl | rfl <;> norm_num)

/-- Claim C1 (counterexample): on the histogram with counts `[1, 1]` and
bucket means `[0, 10]` the only (hence first maximal) split index is 1,
whose bucket mean is 10, yet `otsu` returns 0 — the mean at position 0,
not at the selected split index. -/
theorem otsu_mean_position_counterexample :
    firstMaxSplitIndex [1, 1] [(0 : ℚ), 10] = some 1 ∧
    [(0 : ℚ), 10].get? 1 = some 10 ∧
    otsu [1, 1] [(0 : ℚ), 10] = some 0 ∧
    otsu [1, 1] [(0 : ℚ), 10] ≠ [(0 : ℚ), 10].get? 1 := by
  have h1 : firstMaxSplitIndex [1, 1] [(0 : ℚ), 10] = some 1 := by
    norm_num [firstMaxSplitIndex, splitVariance, weightedSum, List.range',
      List.max?, List.indexOf, List.findIdx, List.findIdx.go]
  have h3 : otsu [1, 1] [(0 : ℚ), 10] = some 0 := by
    norm_num [otsu, qdiv?, weightedSum, mapOption, otsuSplitTerm, List.range',
      List.max?, List.indexOf, List.findIdx, List.findIdx.go]
  refine ⟨h1, rfl, h3, ?_⟩
  rw [h3]
  norm_num

end CVAs
